import Mathlib

/-!
Verification of the search-suggestion aggregation and ranking engine of
`chrome/browser/autocomplete/search_provider.cc` (the `SearchProvider`
class), against its natural-language specification.

The development is a shallow embedding of the C++ source:

* `std::wstring` values are modelled as `String`;
* C++ `int` relevance scores are modelled as `ℤ` (no arithmetic here ever
  approaches the 32-bit range: every score is a small constant plus or minus
  a small bounded delta);
* `double` wall-clock arithmetic in `CalculateRelevanceForHistory` is
  modelled over `ℝ` (an exact-real idealisation of IEEE doubles);
* the `MatchMap` (`std::map<std::wstring, AutocompleteMatch>`) is modelled
  as an association list with unique keys; `std::map` iterates in key order
  while the association list keeps insertion order, which is immaterial to
  every statement proved below (the final ordering is imposed by the sort
  relation, and the map statements are order-independent);
* `std::partial_sort` is modelled by its postcondition from the C++
  standard: the output is a permutation of the input whose prefix of the
  requested length is sorted by the comparator and dominates the suffix.
  The standard leaves the relative order of equivalent elements
  unspecified, so the model is a relation, not a function;
* asynchronous completion callbacks are modelled as state-transition
  relations on an explicit `SearchProvider.State`;
* presentation-only fields of `AutocompleteMatch` (highlight
  classifications, `fill_into_edit`, the destination URL produced by
  external template replacement) are not carried: no statement below
  depends on them.

Code of the repository that is declared outside this excerpt
(`search_provider.h`, `autocomplete.h`) is modelled from the spec where a
claim needs it; each such definition carries a doc comment starting with
`Modelled from the spec:`.
-/

/-- The classification of the typed input (`AutocompleteInput::Type`). -/
inductive InputType where
  | INVALID
  | UNKNOWN
  | REQUESTED_URL
  | URL
  | QUERY
  | FORCED_QUERY
deriving DecidableEq

/-- The slice of `AutocompleteInput` the search provider reads: the
classification, the raw text, the parsed scheme, non-emptiness of the
parsed URL components (`input_.parts()`), and the two behavioural flags. -/
structure AutocompleteInput where
  typ : InputType
  text : String
  scheme : String
  usernameNonempty : Bool
  portNonempty : Bool
  queryNonempty : Bool
  refNonempty : Bool
  pathNonempty : Bool
  synchronous_only : Bool
  prevent_inline_autocomplete : Bool
deriving DecidableEq

/-- The `SearchProvider::Providers` pair after `Set`: whether the default
and keyword providers are non-NULL (each already filtered through
`TemplateURL::SupportsReplacement`), whether each exposes a usable
suggestions URL, and the display strings a match can mention. -/
structure Providers where
  defaultValid : Bool
  keywordValid : Bool
  defaultSuggestValid : Bool
  keywordSuggestValid : Bool
  defaultName : String
  keywordKeyword : String
deriving DecidableEq

/-- Modelled from the spec: `Providers::is_primary_provider` is declared in
`search_provider.h`, outside this excerpt.  Per the spec's glossary the
alternate (keyword) provider, when active, substitutes for the primary
provider; so a candidate source is primary exactly when "the candidate is
from the keyword provider" agrees with "a keyword provider is active". -/
def Providers.is_primary_provider (p : Providers) (is_keyword : Bool) : Bool :=
  is_keyword == p.keywordValid

/-- `AutocompleteMatch::Type`, restricted to the values this file
produces. -/
inductive MatchType where
  | SEARCH_WHAT_YOU_TYPED
  | SEARCH_HISTORY
  | SEARCH_SUGGEST
  | NAVSUGGEST
deriving DecidableEq

/-- The slice of `AutocompleteMatch` the claims are about: the relevance
score, the match text (`contents`), the description, the match type and
which provider produced it. -/
structure AutocompleteMatch where
  relevance : ℤ
  contents : String
  description : String
  typ : MatchType
  fromKeyword : Bool
deriving DecidableEq

/-- One row returned by the history service: a previously searched term and
its last-visit time, in seconds (the model's stand-in for `base::Time`). -/
structure HistoryResult where
  term : String
  time : ℝ

/-- `SearchProvider::NavigationResult`: a fixed-up destination URL and the
server-provided site name. -/
structure NavigationResult where
  url : String
  site_name : String
deriving DecidableEq

/-- Modelled from the spec: `AutocompleteProvider::kMaxMatches` is declared
in `autocomplete.h`, outside this excerpt — the fixed per-category capacity
("capped at a fixed capacity (`kMaxMatches`) per category").  Its numeric
value is irrelevant to every theorem below; `3` is used so the definitions
evaluate. -/
def kMaxMatches : Nat := 3

namespace SearchProvider

/-- `SearchProvider::CalculateRelevanceForWhatYouTyped`.  The first
component is the returned score; the second records whether the
`NOTREACHED()` branch (the `default:` label of the `switch`, i.e. an
`INVALID` classification with no active keyword provider) was taken — in
the source that branch asserts in debug builds and yields `0`. -/
def CalculateRelevanceForWhatYouTyped (p : Providers) (t : InputType) : ℤ × Bool :=
  if p.keywordValid then (250, false)
  else
    match t with
    | .UNKNOWN | .QUERY | .FORCED_QUERY => (1300, false)
    | .REQUESTED_URL => (1150, false)
    | .URL => (850, false)
    | .INVALID => (0, true)

/-- The `base_score` local of `SearchProvider::CalculateRelevanceForHistory`. -/
def historyBaseScore (p : Providers) (t : InputType) (is_keyword : Bool) : ℤ :=
  if !p.is_primary_provider is_keyword then 200
  else if t = .URL then 750 else 1050

/-- `SearchProvider::CalculateRelevanceForHistory`.  `now` stands for
`base::Time::Now()` and `time` for the visit time, both in seconds; the
`static_cast<int>` of the source truncates toward zero, which on the
nonnegative operand `6.5 * pow(elapsed_time, 0.3)` equals the floor. -/
noncomputable def CalculateRelevanceForHistory (p : Providers) (t : InputType)
    (is_keyword : Bool) (now time : ℝ) : ℤ :=
  max 0 (historyBaseScore p t is_keyword -
    Int.floor ((6.5 : ℝ) * (max (now - time) 0) ^ (0.3 : ℝ)))

/-- The `base_score` local of `SearchProvider::CalculateRelevanceForSuggestion`. -/
def suggestBaseScore (p : Providers) (t : InputType) (is_keyword : Bool) : ℤ :=
  if !p.is_primary_provider is_keyword then 100
  else if t = .URL then 300 else 600

/-- `SearchProvider::CalculateRelevanceForSuggestion`.  The source's
`size_t` subtraction `num_results - 1 - result_number` is exact under the
function's `DCHECK(result_number < num_results)` precondition, where it
agrees with truncated `Nat` subtraction. -/
def CalculateRelevanceForSuggestion (p : Providers) (t : InputType)
    (num_results result_number : Nat) (is_keyword : Bool) : ℤ :=
  suggestBaseScore p t is_keyword + ((num_results - 1 - result_number : Nat) : ℤ)

/-- `SearchProvider::CalculateRelevanceForNavigation`. -/
def CalculateRelevanceForNavigation (p : Providers)
    (num_results result_number : Nat) (is_keyword : Bool) : ℤ :=
  (if p.is_primary_provider is_keyword then 800 else 150) +
    ((num_results - 1 - result_number : Nat) : ℤ)

end SearchProvider

/-- The aggregation key: candidate text after case normalisation.  Models
the `l10n_util::ToLower` call of `AddMatchToMap` (ICU lowercasing; the
exact case-folding table is immaterial to the statements below, which hold
for any normalisation function). -/
def normKey (s : String) : String :=
  ⟨s.data.map Char.toLower⟩

/-- `SearchProvider::MatchMap` (`std::map<std::wstring, AutocompleteMatch>`),
as an association list with unique keys.  Iteration order differs from the
key-sorted `std::map` order; no statement below depends on it. -/
def MatchMap : Type := List (String × AutocompleteMatch)

/-- Ordinary association-list lookup on a `MatchMap`. -/
def lookupKey (k : String) : MatchMap → Option AutocompleteMatch
  | [] => none
  | (k2, e) :: rest => if k2 = k then some e else lookupKey k rest

namespace SearchProvider

/-- The tail of `SearchProvider::AddMatchToMap` (lines 747-763): a
`std::map::insert` followed by the guarded overwrite
`if (!i.second && (match.relevance > i.first->second.relevance))
i.first->second = match;`.  The source deliberately compares raw relevance
(not `AutocompleteMatch::MoreRelevant`), so an exact tie keeps the entry
inserted first. -/
def mapInsertKeepMoreRelevant : MatchMap → String → AutocompleteMatch → MatchMap
  | [], key, m => [(key, m)]
  | (k2, e) :: rest, key, m =>
    if k2 = key then (k2, if m.relevance > e.relevance then m else e) :: rest
    else (k2, e) :: mapInsertKeepMoreRelevant rest key m

/-- `SearchProvider::AddMatchToMap`, restricted to the fields the claims
are about.  The presentation work of the source (contents highlighting,
`fill_into_edit`, destination URL via external template replacement) is
not modelled; the constructed match keeps the query string, relevance,
type and provider side, and is inserted under the case-normalised key. -/
def AddMatchToMap (map : MatchMap) (query_string : String) (relevance : ℤ)
    (typ : MatchType) (is_keyword : Bool) : MatchMap :=
  mapInsertKeepMoreRelevant map (normKey query_string)
    { relevance := relevance, contents := query_string, description := "",
      typ := typ, fromKeyword := is_keyword }

/-- One pending `AddMatchToMap` call: the arguments the aggregation loop of
`ConvertResultsToAutocompleteMatches` passes for one candidate. -/
structure RawCandidate where
  query : String
  relevance : ℤ
  typ : MatchType
  is_keyword : Bool
deriving DecidableEq

/-- The `AutocompleteMatch` that `AddMatchToMap` builds for a candidate. -/
def candMatch (c : RawCandidate) : AutocompleteMatch :=
  { relevance := c.relevance, contents := c.query, description := "",
    typ := c.typ, fromKeyword := c.is_keyword }

/-- A sequence of `AddMatchToMap` calls folded over an initial map, in
candidate order — the shape of the aggregation phase of
`ConvertResultsToAutocompleteMatches`. -/
def addAll (cs : List RawCandidate) (map : MatchMap) : MatchMap :=
  cs.foldl (fun mp c => AddMatchToMap mp c.query c.relevance c.typ c.is_keyword) map

/-- The collision policy of `AddMatchToMap` as a fold: starting from the
first candidate of a key, a later candidate replaces the survivor exactly
when its relevance is strictly higher. -/
def collideFold (first : RawCandidate) (rest : List RawCandidate) : AutocompleteMatch :=
  rest.foldl (fun a d => if d.relevance > a.relevance then candMatch d else a)
    (candMatch first)

/-- The mutable members of `SearchProvider` (plus `matches_` and `done_`
inherited from `AutocompleteProvider`).  `timer_running` models whether
`timer_` has been started and not yet stopped or fired. -/
structure State where
  matches_ : List AutocompleteMatch
  done : Bool
  input : AutocompleteInput
  keyword_input_text : String
  providers : Providers
  history_request_pending : Bool
  have_history_results : Bool
  suggest_results_pending : ℤ
  have_suggest_results : Bool
  keyword_history_results : List HistoryResult
  default_history_results : List HistoryResult
  keyword_suggest_results : List String
  default_suggest_results : List String
  keyword_navigation_results : List NavigationResult
  default_navigation_results : List NavigationResult
  timer_running : Bool

/-- `SearchProvider::AddHistoryResultsToMap`: one `AddMatchToMap` call per
history row, scored by `CalculateRelevanceForHistory` at the ambient clock
`now`.  (The `did_not_accept_suggestion` argument of the source only feeds
the unmodelled destination URL.) -/
noncomputable def AddHistoryResultsToMap (now : ℝ) (p : Providers) (t : InputType)
    (results : List HistoryResult) (is_keyword : Bool) (map : MatchMap) : MatchMap :=
  results.foldl
    (fun mp r =>
      AddMatchToMap mp r.term (CalculateRelevanceForHistory p t is_keyword now r.time)
        .SEARCH_HISTORY is_keyword)
    map

/-- `SearchProvider::AddSuggestResultsToMap`: one `AddMatchToMap` call per
remote suggestion, scored by `CalculateRelevanceForSuggestion` at its
zero-based rank. -/
def AddSuggestResultsToMap (p : Providers) (t : InputType)
    (suggest_results : List String) (is_keyword : Bool) (map : MatchMap) : MatchMap :=
  suggest_results.enum.foldl
    (fun mp pr =>
      AddMatchToMap mp pr.2
        (CalculateRelevanceForSuggestion p t suggest_results.length pr.1 is_keyword)
        .SEARCH_SUGGEST is_keyword)
    map

/-- `SearchProvider::NavigationToMatch`, restricted to the modelled fields
(`StringForURLDisplay` is external; the match text keeps the URL). -/
def NavigationToMatch (nav : NavigationResult) (relevance : ℤ)
    (is_keyword : Bool) : AutocompleteMatch :=
  { relevance := relevance, contents := nav.url, description := nav.site_name,
    typ := .NAVSUGGEST, fromKeyword := is_keyword }

/-- `SearchProvider::AddNavigationResultsToMatches`: at most the single
front navigation result of a source is appended, scored at rank 0 over the
source's full count. -/
def AddNavigationResultsToMatches (p : Providers)
    (navigation_results : List NavigationResult) (is_keyword : Bool) :
    List AutocompleteMatch :=
  match navigation_results with
  | [] => []
  | nav :: _ =>
    [NavigationToMatch nav
      (CalculateRelevanceForNavigation p navigation_results.length 0 is_keyword)
      is_keyword]

/-- The match list of `ConvertResultsToAutocompleteMatches` just before the
`std::partial_sort` call: the deduplicating map is filled from the verbatim
entry (when a default provider exists), then keyword and default history,
then keyword and default suggestions; its values are followed by at most
one navigation match per source. -/
noncomputable def preSortMatches (now : ℝ) (s : State) : List AutocompleteMatch :=
  let map0 : MatchMap := []
  let map1 :=
    if s.providers.defaultValid then
      AddMatchToMap map0 s.input.text
        (CalculateRelevanceForWhatYouTyped s.providers s.input.typ).1
        .SEARCH_WHAT_YOU_TYPED false
    else map0
  let map2 := AddHistoryResultsToMap now s.providers s.input.typ
    s.keyword_history_results true map1
  let map3 := AddHistoryResultsToMap now s.providers s.input.typ
    s.default_history_results false map2
  let map4 := AddSuggestResultsToMap s.providers s.input.typ
    s.keyword_suggest_results true map3
  let map5 := AddSuggestResultsToMap s.providers s.input.typ
    s.default_suggest_results false map4
  map5.map Prod.snd ++
    AddNavigationResultsToMatches s.providers s.keyword_navigation_results true ++
    AddNavigationResultsToMatches s.providers s.default_navigation_results false

/-- Modelled from the spec: `AutocompleteMatch::MoreRelevant` is declared
in `autocomplete.h`, outside this excerpt.  The spec orders the final list
"by relevance descending", so the comparator holds when the first match has
strictly higher relevance. -/
def MoreRelevant (a b : AutocompleteMatch) : Bool :=
  a.relevance > b.relevance

/-- The postcondition of `std::partial_sort(first, first + mid, last, comp)`
from the C++ standard: the output is a permutation of the input, its first
`mid` elements are sorted by the comparator, and no element after position
`mid` compares before any of the first `mid`.  The standard leaves the
relative order of equivalent elements unspecified, so this is a relation. -/
def TopSortSpec (mid : Nat) (l out : List AutocompleteMatch) : Prop :=
  l.Perm out ∧
  (out.take mid).Pairwise (fun a b => MoreRelevant b a = false) ∧
  ∀ a ∈ out.take mid, ∀ b ∈ out.drop mid, MoreRelevant b a = false

/-- `SearchProvider::ConvertResultsToAutocompleteMatches` (lines 496-549):
rebuild the match list from the current per-source results, partial-sort
the first `min(kMaxMatches + 1, size)` entries, truncate to
`kMaxMatches + 1`, and recompute `done_` from the pending flags — the
decrements and clears of the completion callbacks having already happened
before this runs.  (`UpdateStarredStateOfMatches` touches only the
unmodelled `starred` presentation flag.) -/
noncomputable def ConvertResultsToAutocompleteMatches (now : ℝ) (s s2 : State) : Prop :=
  ∃ sorted,
    TopSortSpec (min (kMaxMatches + 1) (preSortMatches now s).length)
      (preSortMatches now s) sorted ∧
    s2 = { s with
            matches_ := sorted.take (kMaxMatches + 1),
            done := !s.history_request_pending && (s.suggest_results_pending == 0) }

/-- `SearchProvider::StopHistory`. -/
def StopHistory (s : State) : State :=
  { s with
    history_request_pending := false,
    keyword_history_results := [],
    default_history_results := [],
    have_history_results := false }

/-- `SearchProvider::StopSuggest`. -/
def StopSuggest (s : State) : State :=
  { s with
    suggest_results_pending := 0,
    timer_running := false,
    keyword_suggest_results := [],
    default_suggest_results := [],
    keyword_navigation_results := [],
    default_navigation_results := [],
    have_suggest_results := false }

/-- `SearchProvider::Stop`: halt both sources and mark the query done.
Note that `matches_` is left as is. -/
def Stop (s : State) : State :=
  { StopSuggest (StopHistory s) with done := true }

/-- `SearchProvider::IsQuerySuitableForSuggest` (lines 275-324), as a
function of the profile bits it reads (`profile_->IsOffTheRecord()`, the
`kSearchSuggestEnabled` pref), the current providers and the current
input. -/
def IsQuerySuitableForSuggest (offTheRecord suggestEnabled : Bool)
    (p : Providers) (input : AutocompleteInput) : Bool :=
  if offTheRecord || (!p.keywordSuggestValid && !p.defaultSuggestValid) ||
      !suggestEnabled then
    false
  else if input.typ = .FORCED_QUERY then
    true
  else if input.scheme ≠ "http" ∧ input.scheme ≠ "https" ∧ input.scheme ≠ "ftp" then
    input.typ = .QUERY
  else if input.usernameNonempty || input.portNonempty || input.queryNonempty ||
      input.refNonempty then
    false
  else if input.scheme = "https" ∧ input.pathNonempty then
    false
  else
    true

end SearchProvider

/-- The `base::Value` JSON tree handed to `ParseSuggestResults` by the
external `JSONStringValueSerializer`.  `other` covers every type the parse
code never reads a payload from (null, booleans, numbers, binaries):
`GetAsString` fails on them and `IsType(TYPE_LIST)`/`IsType(TYPE_DICTIONARY)`
only distinguish lists and dictionaries. -/
inductive JValue where
  | str (s : String)
  | list (l : List JValue)
  | dict (d : List (String × JValue))
  | other

/-- `Value::GetAsString`: succeeds exactly on string values. -/
def JValue.getAsString : JValue → Option String
  | .str s => some s
  | _ => none

/-- `ListValue::Get(i)`: succeeds exactly when `i` is in range. -/
def jListGet (l : List JValue) (i : Nat) : Option JValue :=
  l[i]?

/-- `DictionaryValue::GetList(key)`: the value stored under `key` when it
is a list (the `"google:suggesttype"` key contains no `.`-path). -/
def jDictGetList (d : List (String × JValue)) (key : String) : Option (List JValue) :=
  match d.lookup key with
  | some (.list l) => some l
  | _ => none

namespace SearchProvider

/-- The three result buffers `ParseSuggestResults` writes into: the
`suggest_results` output parameter (the caller passes the per-source member
vector) and the two navigation member vectors. -/
structure ParseState where
  suggest_results : List String
  keyword_navigation_results : List NavigationResult
  default_navigation_results : List NavigationResult
deriving DecidableEq

/-- Whether entry `i` is typed `"NAVIGATION"` by the optional
`google:suggesttype` list. -/
def isNavigationAt (type_list : Option (List JValue)) (i : Nat) : Bool :=
  match type_list with
  | none => false
  | some tl =>
    match jListGet tl i with
    | some v =>
      match v.getAsString with
      | some ty => ty = "NAVIGATION"
      | none => false
    | none => false

/-- The body of the result loop of `ParseSuggestResults` for one
`"NAVIGATION"`-typed entry: guarded by the capacity of the per-source
navigation vector and a string description at the same index, the
suggestion string is fixed up into a URL and appended when valid.  The
external `URLFixerUpper::FixupURL` plus `GURL::is_valid` pair is the
`fixup` parameter: `none` models an invalid result, `some u` the fixed-up
valid URL. -/
def navStep (fixup : String → Option String) (is_keyword : Bool)
    (description_list : Option (List JValue)) (i : Nat) (suggestion : String)
    (st : ParseState) : ParseState :=
  let nav := if is_keyword then st.keyword_navigation_results
             else st.default_navigation_results
  let entry : Option NavigationResult :=
    if nav.length < kMaxMatches then
      match description_list with
      | some dl =>
        match jListGet dl i with
        | some site_val =>
          match site_val.getAsString with
          | some site_name =>
            match fixup suggestion with
            | some u => some { url := u, site_name := site_name }
            | none => none
          | none => none
        | none => none
      | none => none
    else none
  match entry with
  | none => st
  | some e =>
    if is_keyword then
      { st with keyword_navigation_results := st.keyword_navigation_results ++ [e] }
    else
      { st with default_navigation_results := st.default_navigation_results ++ [e] }

/-- The result loop of `ParseSuggestResults` (lines 451-491), carrying the
running index so the description and type lists stay aligned.  A non-string
element returns failure immediately, keeping whatever was already stored;
empty suggestion strings are skipped; plain suggestions are appended up to
`kMaxMatches`. -/
def parseResultLoop (fixup : String → Option String) (is_keyword : Bool)
    (description_list type_list : Option (List JValue)) :
    List JValue → Nat → ParseState → Bool × ParseState
  | [], _, st => (true, st)
  | v :: rest, i, st =>
    match v.getAsString with
    | none => (false, st)
    | some suggestion =>
      if suggestion = "" then
        parseResultLoop fixup is_keyword description_list type_list rest (i + 1) st
      else if isNavigationAt type_list i then
        parseResultLoop fixup is_keyword description_list type_list rest (i + 1)
          (navStep fixup is_keyword description_list i suggestion st)
      else
        parseResultLoop fixup is_keyword description_list type_list rest (i + 1)
          (if st.suggest_results.length < kMaxMatches then
            { st with suggest_results := st.suggest_results ++ [suggestion] }
          else st)

/-- `SearchProvider::ParseSuggestResults` (lines 403-494).  Returns the
source's `bool` along with the final contents of the three buffers it
writes (the source mutates them in place). -/
def ParseSuggestResults (fixup : String → Option String) (root : JValue)
    (is_keyword : Bool) (input_text : String) (st : ParseState) :
    Bool × ParseState :=
  match root with
  | .list root_list =>
    if root_list.length < 2 then (false, st)
    else
      match (jListGet root_list 0).bind JValue.getAsString with
      | none => (false, st)
      | some query_str =>
        if query_str ≠ input_text then (false, st)
        else
          match jListGet root_list 1 with
          | some (.list result_list) =>
            let description_list : Option (List JValue) :=
              if root_list.length > 2 then
                match jListGet root_list 2 with
                | some (.list dl) => some dl
                | _ => none
              else none
            let type_list : Option (List JValue) :=
              if root_list.length > 4 then
                match jListGet root_list 4 with
                | some (.dict dv) => jDictGetList dv "google:suggesttype"
                | _ => none
              else none
            parseResultLoop fixup is_keyword description_list type_list
              result_list 0 st
          | _ => (false, st)
  | _ => (false, st)

/-- `SearchProvider::OnURLFetchComplete` (lines 162-207): decrement the
outstanding-fetch counter first, then — on a successful 200 response —
deserialize and parse into the per-source buffers (`root = none` models a
body the external JSON deserializer rejects), and finally run an
aggregation pass.  The charset conversion of the body and the listener
notification are external. -/
noncomputable def OnURLFetchComplete (fixup : String → Option String) (now : ℝ)
    (is_keyword_results : Bool) (status_success : Bool) (response_code : ℤ)
    (root : Option JValue) (s s2 : State) : Prop :=
  let s1 := { s with suggest_results_pending := s.suggest_results_pending - 1 }
  let s3 :=
    if status_success && (response_code == 200) then
      match root with
      | none => { s1 with have_suggest_results := false }
      | some r =>
        let input_text := if is_keyword_results then s1.keyword_input_text
                          else s1.input.text
        let st0 : ParseState :=
          { suggest_results :=
              if is_keyword_results then s1.keyword_suggest_results
              else s1.default_suggest_results,
            keyword_navigation_results := s1.keyword_navigation_results,
            default_navigation_results := s1.default_navigation_results }
        let res := ParseSuggestResults fixup r is_keyword_results input_text st0
        { s1 with
          have_suggest_results := res.1,
          keyword_suggest_results :=
            if is_keyword_results then res.2.suggest_results
            else s1.keyword_suggest_results,
          default_suggest_results :=
            if is_keyword_results then s1.default_suggest_results
            else res.2.suggest_results,
          keyword_navigation_results := res.2.keyword_navigation_results,
          default_navigation_results := res.2.default_navigation_results }
    else s1
  ConvertResultsToAutocompleteMatches now s3 s2

/-- `SearchProvider::OnGotMostRecentKeywordSearchTerms` (lines 363-386):
store the rows under the keyword or default bucket (`for_keyword` is the
source's client-data test `valid_keyword_provider() && ids match`), clear
the pending flag when this was the last outstanding history request
(`PendingRequestCount() == 1`, requests being removed only after the
callback returns), then run an aggregation pass. -/
noncomputable def OnGotMostRecentKeywordSearchTerms (now : ℝ) (for_keyword : Bool)
    (results : List HistoryResult) (pendingRequestCount : Nat)
    (s s2 : State) : Prop :=
  let s1 :=
    if for_keyword then { s with keyword_history_results := results }
    else { s with default_history_results := results }
  let s3 :=
    if pendingRequestCount == 1 then
      { s1 with history_request_pending := false, have_history_results := true }
    else s1
  ConvertResultsToAutocompleteMatches now s3 s2

/-- The localized placeholder strings of the empty-input branch of `Start`
(`l10n_util::GetString*` is external; the tokens stand for the localized
texts). -/
def placeholderMatch (default_provider_name : String) : AutocompleteMatch :=
  { relevance := 0, contents := "IDS_EMPTY_KEYWORD_VALUE",
    description := "IDS_AUTOCOMPLETE_SEARCH_DESCRIPTION " ++ default_provider_name,
    typ := .SEARCH_WHAT_YOU_TYPED, fromKeyword := false }

/-- `SearchProvider::Start` (lines 65-132) up to the point where
asynchronous work would begin.  The externally computed inputs are passed
in: `profileValid` (`profile_ != NULL`), the keyword-provider candidate
from `KeywordProvider::GetSubstitutingTemplateURLForInput` together with
its replacement support and the extracted keyword input text, the default
provider's existence and replacement support, whether the two coincide,
the suggestions-URL support of each, and whether the stored providers
equal the new pair.  Returns `some s2` on the synchronous early-return
paths (bogus input, no valid providers, and the empty-text placeholder
branch); returns `none` when the function proceeds to
`StartOrStopHistoryQuery`/`StartOrStopSuggestQuery` (modelled
separately). -/
def Start (profileValid : Bool) (input : AutocompleteInput)
    (keyword_candidate keyword_supports : Bool) (keyword_text : String)
    (default_candidate default_supports : Bool) (keyword_is_default : Bool)
    (default_suggest_supports keyword_suggest_supports : Bool)
    (default_name keyword_keyword : String) (providers_equal_new : Bool)
    (minimal_changes : Bool) (s : State) : Option State :=
  let s0 := { s with matches_ := [] }
  if !profileValid || (input.typ = .INVALID) then some (Stop s0)
  else
    let keywordValid0 := keyword_candidate && keyword_supports && !(keyword_text = "")
    let keywordValid := keywordValid0 && !keyword_is_default
    let defaultValid := default_candidate && default_supports
    if !defaultValid && !keywordValid then some (Stop { s0 with keyword_input_text := keyword_text })
    else
      let s1 := { s0 with keyword_input_text := keyword_text }
      let s2 := if !s1.done && (!minimal_changes || !providers_equal_new)
                then Stop s1 else s1
      let s3 := { s2 with providers :=
        { defaultValid := defaultValid,
          keywordValid := keywordValid,
          defaultSuggestValid := defaultValid && default_suggest_supports,
          keywordSuggestValid := keywordValid && keyword_suggest_supports,
          defaultName := default_name,
          keywordKeyword := keyword_keyword } }
      if input.text = "" then
        some (Stop
          { s3 with matches_ :=
              if defaultValid then [placeholderMatch default_name] else [] })
      else
        none

end SearchProvider

/-- A provider pair with only the default provider active. -/
def exampleProvidersNoKeyword : Providers :=
  { defaultValid := true, keywordValid := false, defaultSuggestValid := true,
    keywordSuggestValid := false, defaultName := "d", keywordKeyword := "k" }

/-- A provider pair with an active keyword provider. -/
def exampleProvidersKeywordActive : Providers :=
  { defaultValid := true, keywordValid := true, defaultSuggestValid := true,
    keywordSuggestValid := true, defaultName := "d", keywordKeyword := "k" }

namespace SearchProvider

/-- C3: the verbatim scorer returns 250 whenever a keyword (alternate)
provider is active; otherwise 1300 for UNKNOWN/QUERY/FORCED_QUERY input,
1150 for REQUESTED_URL, 850 for URL; and the only remaining
classification, INVALID, takes the `NOTREACHED()` branch (recorded by the
second component) rather than silently scoring. -/
theorem whatYouTyped_relevance_spec (p : Providers) (t : InputType) :
    (p.keywordValid = true → CalculateRelevanceForWhatYouTyped p t = (250, false)) ∧
    (p.keywordValid = false → (t = .UNKNOWN ∨ t = .QUERY ∨ t = .FORCED_QUERY) →
      CalculateRelevanceForWhatYouTyped p t = (1300, false)) ∧
    (p.keywordValid = false → t = .REQUESTED_URL →
      CalculateRelevanceForWhatYouTyped p t = (1150, false)) ∧
    (p.keywordValid = false → t = .URL →
      CalculateRelevanceForWhatYouTyped p t = (850, false)) ∧
    (p.keywordValid = false → t = .INVALID →
      CalculateRelevanceForWhatYouTyped p t = (0, true)) := by
  refine ⟨?_, ?_, ?_, ?_, ?_⟩ <;> intro hk
  · simp [CalculateRelevanceForWhatYouTyped, hk]
  · rintro (rfl | rfl | rfl) <;> simp [CalculateRelevanceForWhatYouTyped, hk]
  · rintro rfl; simp [CalculateRelevanceForWhatYouTyped, hk]
  · rintro rfl; simp [CalculateRelevanceForWhatYouTyped, hk]
  · rintro rfl; simp [CalculateRelevanceForWhatYouTyped, hk]

/-- Witness for C3 at concrete providers and input classifications. -/
theorem whatYouTyped_relevance_spec_witness :
    CalculateRelevanceForWhatYouTyped exampleProvidersKeywordActive .QUERY = (250, false) ∧
    CalculateRelevanceForWhatYouTyped exampleProvidersNoKeyword .QUERY = (1300, false) ∧
    CalculateRelevanceForWhatYouTyped exampleProvidersNoKeyword .INVALID = (0, true) :=
  ⟨(whatYouTyped_relevance_spec exampleProvidersKeywordActive .QUERY).1 rfl,
   (whatYouTyped_relevance_spec exampleProvidersNoKeyword .QUERY).2.1 rfl
     (Or.inr (Or.inl rfl)),
   (whatYouTyped_relevance_spec exampleProvidersNoKeyword .INVALID).2.2.2.2 rfl rfl⟩

/-- C4: a history candidate scores `max 0 (base − ⌊6.5 · elapsed^0.3⌋)`
with the elapsed wall-clock seconds clamped to be nonnegative, where base
is 1050 for a primary provider on non-URL input, 750 for a primary
provider on URL input and 200 for an alternate provider; the score is
monotonically non-increasing in the elapsed time and never negative. -/
theorem history_relevance_spec (p : Providers) (t : InputType) (ik : Bool)
    (now1 time1 now2 time2 : ℝ) (h : now1 - time1 ≤ now2 - time2) :
    CalculateRelevanceForHistory p t ik now2 time2 ≤
      CalculateRelevanceForHistory p t ik now1 time1 ∧
    0 ≤ CalculateRelevanceForHistory p t ik now1 time1 ∧
    CalculateRelevanceForHistory p t ik now1 time1 =
      max 0 (historyBaseScore p t ik -
        Int.floor ((6.5 : ℝ) * (max (now1 - time1) 0) ^ (0.3 : ℝ))) ∧
    (p.is_primary_provider ik = true → t ≠ .URL → historyBaseScore p t ik = 1050) ∧
    (p.is_primary_provider ik = true → t = .URL → historyBaseScore p t ik = 750) ∧
    (p.is_primary_provider ik = false → historyBaseScore p t ik = 200) := by
  refine ⟨?_, le_max_left 0 _, rfl, ?_, ?_, ?_⟩
  · have hm : max (now1 - time1) 0 ≤ max (now2 - time2) 0 := max_le_max h le_rfl
    have hr : (max (now1 - time1) 0) ^ (0.3 : ℝ) ≤ (max (now2 - time2) 0) ^ (0.3 : ℝ) :=
      Real.rpow_le_rpow (le_max_right _ _) hm (by norm_num)
    have hmul : (6.5 : ℝ) * (max (now1 - time1) 0) ^ (0.3 : ℝ) ≤
        (6.5 : ℝ) * (max (now2 - time2) 0) ^ (0.3 : ℝ) :=
      mul_le_mul_of_nonneg_left hr (by norm_num)
    exact max_le_max le_rfl (sub_le_sub_left (Int.floor_mono hmul) _)
  · intro hp ht; simp [historyBaseScore, hp, ht]
  · intro hp ht; simp [historyBaseScore, hp, ht]
  · intro hp; simp [historyBaseScore, hp]

/-- Witness for C4: ten elapsed seconds score no higher than one elapsed
second, and the one-second score is nonnegative. -/
theorem history_relevance_spec_witness :
    CalculateRelevanceForHistory exampleProvidersNoKeyword .QUERY false 10 0 ≤
      CalculateRelevanceForHistory exampleProvidersNoKeyword .QUERY false 1 0 ∧
    0 ≤ CalculateRelevanceForHistory exampleProvidersNoKeyword .QUERY false 1 0 :=
  ⟨(history_relevance_spec exampleProvidersNoKeyword .QUERY false 1 0 10 0
      (by norm_num)).1,
   (history_relevance_spec exampleProvidersNoKeyword .QUERY false 1 0 10 0
      (by norm_num)).2.1⟩

/-- C5: a plain remote suggestion at zero-based rank `r` out of `n`
results scores `base + (n − 1 − r)` with base 600 for a primary provider
on non-URL input, 300 for a primary provider on URL input, 100 for an
alternate provider; so for a fixed source the score strictly decreases as
the rank increases. -/
theorem suggestion_relevance_spec (p : Providers) (t : InputType) (ik : Bool)
    (n r1 r2 : Nat) (h1 : r1 < r2) (h2 : r2 < n) :
    CalculateRelevanceForSuggestion p t n r2 ik <
      CalculateRelevanceForSuggestion p t n r1 ik ∧
    CalculateRelevanceForSuggestion p t n r1 ik =
      suggestBaseScore p t ik + ((n - 1 - r1 : Nat) : ℤ) ∧
    (p.is_primary_provider ik = true → t ≠ .URL → suggestBaseScore p t ik = 600) ∧
    (p.is_primary_provider ik = true → t = .URL → suggestBaseScore p t ik = 300) ∧
    (p.is_primary_provider ik = false → suggestBaseScore p t ik = 100) := by
  refine ⟨?_, rfl, ?_, ?_, ?_⟩
  · simp only [CalculateRelevanceForSuggestion]
    have : ((n - 1 - r2 : Nat) : ℤ) < ((n - 1 - r1 : Nat) : ℤ) := by omega
    omega
  · intro hp ht; simp [suggestBaseScore, hp, ht]
  · intro hp ht; simp [suggestBaseScore, hp, ht]
  · intro hp; simp [suggestBaseScore, hp]

/-- Witness for C5: rank 1 of 2 scores strictly below rank 0 of 2. -/
theorem suggestion_relevance_spec_witness :
    CalculateRelevanceForSuggestion exampleProvidersNoKeyword .QUERY 2 1 false <
      CalculateRelevanceForSuggestion exampleProvidersNoKeyword .QUERY 2 0 false :=
  (suggestion_relevance_spec exampleProvidersNoKeyword .QUERY false 2 0 1
    (by decide) (by decide)).1

/-- The outcome of one `AddMatchToMap` collision: the new match replaces
the stored one exactly when its relevance is strictly higher. -/
def applyCollide (m : AutocompleteMatch) : Option AutocompleteMatch → AutocompleteMatch
  | none => m
  | some e => if m.relevance > e.relevance then m else e

/-- The stored value for a key after a run of candidates, as a fold of
`applyCollide` over the candidates hitting that key. -/
def winnerFold (acc : Option AutocompleteMatch) (cs : List RawCandidate) :
    Option AutocompleteMatch :=
  cs.foldl (fun a c => some (applyCollide (candMatch c) a)) acc

theorem lookupKey_insert (mp : MatchMap) (key : String) (m : AutocompleteMatch)
    (k : String) :
    lookupKey k (mapInsertKeepMoreRelevant mp key m) =
      if key = k then some (applyCollide m (lookupKey k mp)) else lookupKey k mp := by
  induction mp with
  | nil =>
    by_cases h : key = k <;>
      simp [mapInsertKeepMoreRelevant, lookupKey, h, applyCollide]
  | cons hd tl ih =>
    obtain ⟨k2, e⟩ := hd
    by_cases h1 : k2 = key
    · subst h1
      by_cases h2 : k2 = k
      · subst h2
        simp [mapInsertKeepMoreRelevant, lookupKey, applyCollide]
      · simp [mapInsertKeepMoreRelevant, lookupKey, h2]
    · by_cases h2 : k2 = k
      · subst h2
        have hk : ¬ key = k2 := fun hh => h1 hh.symm
        simp [mapInsertKeepMoreRelevant, lookupKey, h1, hk]
      · simp [mapInsertKeepMoreRelevant, lookupKey, h1, h2, ih]

theorem lookupKey_addAll (cs : List RawCandidate) (mp : MatchMap) (k : String) :
    lookupKey k (addAll cs mp) =
      winnerFold (lookupKey k mp) (cs.filter (fun d => normKey d.query == k)) := by
  induction cs generalizing mp with
  | nil => simp [addAll, winnerFold]
  | cons c cs ih =>
    have hstep : addAll (c :: cs) mp =
        addAll cs (AddMatchToMap mp c.query c.relevance c.typ c.is_keyword) := rfl
    rw [hstep, ih]
    by_cases h : normKey c.query = k
    · have hb : (normKey c.query == k) = true := beq_iff_eq.mpr h
      simp only [AddMatchToMap, List.filter_cons, hb, if_pos, winnerFold,
        List.foldl_cons, lookupKey_insert, h]
      simp [candMatch]
    · have hb : (normKey c.query == k) = false := by
        simp [beq_iff_eq, h]
      simp only [AddMatchToMap, List.filter_cons, hb, winnerFold,
        lookupKey_insert, if_neg h]
      simp

theorem winnerFold_some (rest : List RawCandidate) (e : AutocompleteMatch) :
    winnerFold (some e) rest =
      some (rest.foldl
        (fun a d => if d.relevance > a.relevance then candMatch d else a) e) := by
  induction rest generalizing e with
  | nil => rfl
  | cons d rest ih =>
    simp only [winnerFold, List.foldl_cons] at ih ⊢
    rw [ih]
    congr 1

theorem collide_step_relevance (a : AutocompleteMatch) (d : RawCandidate) :
    a.relevance ≤ (if d.relevance > a.relevance then candMatch d else a).relevance ∧
    d.relevance ≤ (if d.relevance > a.relevance then candMatch d else a).relevance := by
  by_cases h : d.relevance > a.relevance <;> simp [h, candMatch] <;> omega

theorem collideFold_relevance_ge (rest : List RawCandidate) (a : AutocompleteMatch) :
    a.relevance ≤
      (rest.foldl (fun a d => if d.relevance > a.relevance then candMatch d else a)
        a).relevance ∧
    ∀ d ∈ rest,
      d.relevance ≤
        (rest.foldl (fun a d => if d.relevance > a.relevance then candMatch d else a)
          a).relevance := by
  induction rest generalizing a with
  | nil => simp
  | cons d rest ih =>
    simp only [List.foldl_cons]
    refine ⟨le_trans (collide_step_relevance a d).1 (ih _).1, ?_⟩
    intro d2 hd2
    rcases List.mem_cons.mp hd2 with rfl | hmem
    · exact le_trans (collide_step_relevance a d2).2 (ih _).1
    · exact (ih _).2 d2 hmem

theorem keys_insert (mp : MatchMap) (key : String) (m : AutocompleteMatch) :
    (mapInsertKeepMoreRelevant mp key m).map Prod.fst =
      if key ∈ mp.map Prod.fst then mp.map Prod.fst
      else mp.map Prod.fst ++ [key] := by
  induction mp with
  | nil => simp [mapInsertKeepMoreRelevant]
  | cons hd tl ih =>
    obtain ⟨k2, e⟩ := hd
    by_cases h1 : k2 = key
    · subst h1
      simp [mapInsertKeepMoreRelevant]
    · have hne : ¬ key = k2 := fun hh => h1 hh.symm
      by_cases h2 : key ∈ tl.map Prod.fst <;>
        simp [mapInsertKeepMoreRelevant, h1, hne, h2, ih]

theorem keys_nodup_insert (mp : MatchMap) (key : String) (m : AutocompleteMatch)
    (h : (mp.map Prod.fst).Nodup) :
    ((mapInsertKeepMoreRelevant mp key m).map Prod.fst).Nodup := by
  rw [keys_insert]
  by_cases hmem : key ∈ mp.map Prod.fst
  · simpa [hmem] using h
  · simp [hmem, List.nodup_append, h]

theorem keys_nodup_addAll (cs : List RawCandidate) (mp : MatchMap)
    (h : (mp.map Prod.fst).Nodup) : ((addAll cs mp).map Prod.fst).Nodup := by
  induction cs generalizing mp with
  | nil => simpa [addAll] using h
  | cons c cs ih =>
    have hstep : addAll (c :: cs) mp =
        addAll cs (AddMatchToMap mp c.query c.relevance c.typ c.is_keyword) := rfl
    rw [hstep]
    exact ih _ (keys_nodup_insert mp _ _ h)

/-- C2: aggregating any candidate run through `AddMatchToMap` leaves at
most one entry per case-normalised key; the stored survivor of a key is
the collision fold of the candidates hitting that key — a later candidate
replaces the survivor exactly when its relevance is strictly higher, so an
exact tie keeps the first-inserted candidate — and the survivor's
relevance is at least that of every candidate with that key. -/
theorem match_map_dedup_spec (cs : List RawCandidate) (k : String)
    (c : RawCandidate) (rest : List RawCandidate)
    (hf : cs.filter (fun d => normKey d.query == k) = c :: rest) :
    lookupKey k (addAll cs []) = some (collideFold c rest) ∧
    ((addAll cs []).map Prod.fst).Nodup ∧
    ∀ d ∈ cs, normKey d.query = k → d.relevance ≤ (collideFold c rest).relevance := by
  have hlook : lookupKey k (addAll cs []) = some (collideFold c rest) := by
    rw [lookupKey_addAll, hf]
    show winnerFold (some (applyCollide (candMatch c) none)) rest = _
    rw [show applyCollide (candMatch c) none = candMatch c from rfl,
      winnerFold_some]
    rfl
  refine ⟨hlook, keys_nodup_addAll cs [] (by simp), ?_⟩
  intro d hd hk
  have hdf : d ∈ cs.filter (fun d => normKey d.query == k) :=
    List.mem_filter.mpr ⟨hd, beq_iff_eq.mpr hk⟩
  rw [hf] at hdf
  rcases List.mem_cons.mp hdf with rfl | hmem
  · simpa [collideFold, candMatch] using
      (collideFold_relevance_ge rest (candMatch d)).1
  · exact (collideFold_relevance_ge rest (candMatch c)).2 d hmem

/-- Witness for C2: two candidates colliding on key `"a"` (the second
differing only by case, with lower relevance) leave a single entry holding
the first, higher-scoring candidate. -/
theorem match_map_dedup_spec_witness :
    lookupKey "a"
        (addAll [⟨"a", 10, .SEARCH_HISTORY, false⟩, ⟨"A", 7, .SEARCH_SUGGEST, false⟩] []) =
      some (collideFold ⟨"a", 10, .SEARCH_HISTORY, false⟩
        [⟨"A", 7, .SEARCH_SUGGEST, false⟩]) ∧
    ((addAll [⟨"a", 10, .SEARCH_HISTORY, false⟩, ⟨"A", 7, .SEARCH_SUGGEST, false⟩]
        []).map Prod.fst).Nodup ∧
    ∀ d ∈ [(⟨"a", 10, .SEARCH_HISTORY, false⟩ : RawCandidate),
           ⟨"A", 7, .SEARCH_SUGGEST, false⟩],
      normKey d.query = "a" →
        d.relevance ≤ (collideFold ⟨"a", 10, .SEARCH_HISTORY, false⟩
          [⟨"A", 7, .SEARCH_SUGGEST, false⟩]).relevance :=
  match_map_dedup_spec _ "a" _ _ (by decide)

/-- C7: given the profile-level preconditions (not off the record, some
provider has a suggest endpoint, the pref enabled), the gate admits
forced-query input unconditionally; for any other classification it admits
a non-http/https/ftp scheme exactly when the input is classified QUERY,
rejects http/https/ftp inputs carrying a username, port, query string or
fragment, and rejects https inputs with a non-empty path. -/
theorem suggest_gate_spec (otr en : Bool) (p : Providers) (input : AutocompleteInput)
    (h1 : otr = false)
    (h2 : p.keywordSuggestValid = true ∨ p.defaultSuggestValid = true)
    (h3 : en = true) :
    (input.typ = .FORCED_QUERY → IsQuerySuitableForSuggest otr en p input = true) ∧
    (input.typ ≠ .FORCED_QUERY → input.scheme ≠ "http" → input.scheme ≠ "https" →
      input.scheme ≠ "ftp" →
      (IsQuerySuitableForSuggest otr en p input = true ↔ input.typ = .QUERY)) ∧
    (input.typ ≠ .FORCED_QUERY →
      (input.scheme = "http" ∨ input.scheme = "https" ∨ input.scheme = "ftp") →
      (input.usernameNonempty = true ∨ input.portNonempty = true ∨
        input.queryNonempty = true ∨ input.refNonempty = true) →
      IsQuerySuitableForSuggest otr en p input = false) ∧
    (input.typ ≠ .FORCED_QUERY → input.scheme = "https" →
      input.pathNonempty = true →
      IsQuerySuitableForSuggest otr en p input = false) := by
  subst h1 h3
  have hopt : (false || (!p.keywordSuggestValid && !p.defaultSuggestValid) ||
      !true) = false := by
    rcases h2 with h | h <;> simp [h]
  refine ⟨?_, ?_, ?_, ?_⟩
  · intro ht
    simp only [IsQuerySuitableForSuggest, hopt]
    simp [ht]
  · intro ht hs1 hs2 hs3
    simp only [IsQuerySuitableForSuggest, hopt]
    simp [ht, hs1, hs2, hs3]
  · intro ht hs hparts
    have hsch : ¬ (input.scheme ≠ "http" ∧ input.scheme ≠ "https" ∧
        input.scheme ≠ "ftp") := by
      rcases hs with h | h | h <;> simp [h]
    simp only [IsQuerySuitableForSuggest, hopt]
    rcases hparts with h | h | h | h <;> simp [ht, hsch, h]
  · intro ht hs hpath
    have hsch : ¬ (input.scheme ≠ "http" ∧ input.scheme ≠ "https" ∧
        input.scheme ≠ "ftp") := by simp [hs]
    simp only [IsQuerySuitableForSuggest, hopt]
    by_cases hu : (input.usernameNonempty || input.portNonempty ||
        input.queryNonempty || input.refNonempty) = true
    · simp [ht, hsch, hu]
    · have hb : (input.usernameNonempty || input.portNonempty ||
          input.queryNonempty || input.refNonempty) = false := by
        simpa using hu
      simp [ht, hsch, hb, hs, hpath]

/-- An https input with a non-empty path, classified URL. -/
def exampleHttpsPathInput : AutocompleteInput :=
  { typ := .URL, text := "https://h/p", scheme := "https",
    usernameNonempty := false, portNonempty := false, queryNonempty := false,
    refNonempty := false, pathNonempty := true, synchronous_only := false,
    prevent_inline_autocomplete := false }

/-- Witness for C7: with the preconditions satisfied, an https input with a
non-empty path is rejected. -/
theorem suggest_gate_spec_witness :
    IsQuerySuitableForSuggest false true exampleProvidersNoKeyword
      exampleHttpsPathInput = false :=
  (suggest_gate_spec false true exampleProvidersNoKeyword exampleHttpsPathInput
    rfl (Or.inr rfl) rfl).2.2.2 (by decide) rfl rfl

/-- A plain query input. -/
def exampleInputQ : AutocompleteInput :=
  { typ := .QUERY, text := "q", scheme := "", usernameNonempty := false,
    portNonempty := false, queryNonempty := false, refNonempty := false,
    pathNonempty := false, synchronous_only := false,
    prevent_inline_autocomplete := false }

/-- A provider pair with neither provider usable. -/
def providersNone : Providers :=
  { defaultValid := false, keywordValid := false, defaultSuggestValid := false,
    keywordSuggestValid := false, defaultName := "d", keywordKeyword := "k" }

/-- A quiescent provider state with no per-source results. -/
def emptyState : State :=
  { matches_ := [], done := false, input := exampleInputQ,
    keyword_input_text := "", providers := providersNone,
    history_request_pending := false, have_history_results := false,
    suggest_results_pending := 0, have_suggest_results := false,
    keyword_history_results := [], default_history_results := [],
    keyword_suggest_results := [], default_suggest_results := [],
    keyword_navigation_results := [], default_navigation_results := [],
    timer_running := false }

/-- The state an aggregation pass produces from `emptyState`. -/
def emptyConvertOut : State :=
  { emptyState with matches_ := [], done := true }

/-- C1: every aggregation pass truncates the produced match list to at most
`kMaxMatches + 1` entries (the extra slot being the one reserved for the
verbatim what-you-typed match). -/
theorem convert_truncates_spec (now : ℝ) (s s2 : State)
    (h : ConvertResultsToAutocompleteMatches now s s2) :
    s2.matches_.length ≤ kMaxMatches + 1 := by
  obtain ⟨sorted, _, rfl⟩ := h
  simp [List.length_take]

/-- Witness for C1: a pass over the quiescent state. -/
theorem convert_truncates_spec_witness :
    emptyConvertOut.matches_.length ≤ kMaxMatches + 1 :=
  convert_truncates_spec 0 emptyState emptyConvertOut
    ⟨[], ⟨List.Perm.nil, by simp, by simp⟩, by rfl⟩

/-- The property C6 asserts of the finalizer: among equal-relevance
candidates, the output order equals the order of the combined input list
(the construction order of the pass). -/
def equalRelevanceOrderPreserved (pre out : List AutocompleteMatch) : Prop :=
  ∀ a ∈ pre, ∀ b ∈ pre, a.relevance = b.relevance →
    List.indexOf a pre < List.indexOf b pre →
    List.indexOf a out < List.indexOf b out

/-- A history match for term `"a"` visited at the pass's clock (score
1050). -/
def mA : AutocompleteMatch :=
  { relevance := 1050, contents := "a", description := "",
    typ := .SEARCH_HISTORY, fromKeyword := false }

/-- A history match for term `"b"` visited at the pass's clock (score
1050, tying `mA`). -/
def mB : AutocompleteMatch :=
  { relevance := 1050, contents := "b", description := "",
    typ := .SEARCH_HISTORY, fromKeyword := false }

/-- A state holding two same-instant history rows, which score equal
relevance. -/
def histTieState : State :=
  { emptyState with
    default_history_results := [{ term := "a", time := 0 }, { term := "b", time := 0 }],
    have_history_results := true }

/-- A pass outcome from `histTieState` in which the two tied matches come
out in the order `[mB, mA]`. -/
def histTieOut : State :=
  { histTieState with matches_ := [mB, mA], done := true }

theorem hist_relevance_at_zero :
    CalculateRelevanceForHistory providersNone .QUERY false 0 0 = 1050 := by
  simp [CalculateRelevanceForHistory, historyBaseScore,
    Providers.is_primary_provider, providersNone,
    Real.zero_rpow (by norm_num : (0.3 : ℝ) ≠ 0)]

theorem preSort_histTie : preSortMatches 0 histTieState = [mA, mB] := by
  simp only [preSortMatches, AddHistoryResultsToMap, AddSuggestResultsToMap,
    AddNavigationResultsToMatches, histTieState, emptyState, exampleInputQ,
    List.foldl_cons, List.foldl_nil, List.enum_nil]
  simp only [hist_relevance_at_zero]
  decide

theorem histTie_topSort :
    TopSortSpec (min (kMaxMatches + 1) (preSortMatches 0 histTieState).length)
      (preSortMatches 0 histTieState) [mB, mA] := by
  rw [preSort_histTie]
  exact ⟨List.Perm.swap mB mA [], by decide, by decide⟩

/-- Counterexample for C6: the two equal-relevance history matches of
`histTieState` enter the combined list as `[mA, mB]`, yet the pass may
legitimately produce them as `[mB, mA]` — `std::partial_sort` does not
preserve construction order among equal-relevance candidates. -/
theorem finalizer_order_counterexample :
    ¬ (∀ (now : ℝ) (s s2 : State),
        ConvertResultsToAutocompleteMatches now s s2 →
        equalRelevanceOrderPreserved (preSortMatches now s) s2.matches_) := by
  intro hclaim
  have hconv : ConvertResultsToAutocompleteMatches 0 histTieState histTieOut :=
    ⟨[mB, mA], histTie_topSort, by rfl⟩
  have hthis := hclaim 0 histTieState histTieOut hconv
  rw [preSort_histTie] at hthis
  have h2 := hthis mA (by simp) mB (by simp) rfl (by decide)
  exact absurd h2 (by decide)

/-- C6 (amended): the finalizer's output is sorted by relevance descending
and drawn from the combined candidate list; the relative order of
equal-relevance candidates is unspecified (`std::partial_sort` is not a
stable sort), not construction order. -/
theorem finalizer_order_amended (now : ℝ) (s s2 : State)
    (h : ConvertResultsToAutocompleteMatches now s s2) :
    s2.matches_.Pairwise (fun a b => b.relevance ≤ a.relevance) ∧
    ∀ m ∈ s2.matches_, m ∈ preSortMatches now s := by
  obtain ⟨sorted, ⟨hperm, hpair, _⟩, rfl⟩ := h
  constructor
  · show (sorted.take (kMaxMatches + 1)).Pairwise _
    have hlen : sorted.length = (preSortMatches now s).length := hperm.length_eq.symm
    have heq : sorted.take (kMaxMatches + 1) =
        sorted.take (min (kMaxMatches + 1) (preSortMatches now s).length) := by
      rw [List.take_eq_take]
      omega
    rw [heq]
    refine hpair.imp ?_
    intro a b hab
    have : ¬ (b.relevance > a.relevance) := by
      simpa [MoreRelevant] using hab
    omega
  · intro m hm
    have hm2 : m ∈ sorted := List.take_subset _ _ hm
    exact hperm.symm.subset hm2

/-- Witness for C6 (amended) at the tied-history pass. -/
theorem finalizer_order_amended_witness :
    histTieOut.matches_.Pairwise (fun a b => b.relevance ≤ a.relevance) ∧
    ∀ m ∈ histTieOut.matches_, m ∈ preSortMatches 0 histTieState :=
  finalizer_order_amended 0 histTieState histTieOut
    ⟨[mB, mA], histTie_topSort, by rfl⟩

theorem convert_fields (now : ℝ) (s s2 : State)
    (h : ConvertResultsToAutocompleteMatches now s s2) :
    s2.done = (!s.history_request_pending && (s.suggest_results_pending == 0)) ∧
    s2.history_request_pending = s.history_request_pending ∧
    s2.suggest_results_pending = s.suggest_results_pending := by
  obtain ⟨sorted, _, rfl⟩ := h
  exact ⟨rfl, rfl, rfl⟩

/-- C8: every aggregation pass computes `done_` as "no history request
pending and no suggestion fetch outstanding"; and because the suggestion
counter is decremented (and the history pending flag cleared via the
`PendingRequestCount() == 1` test) before the pass runs, a pass triggered
from inside a completion callback excludes the currently-completing
request — a history completion with one fetch still outstanding leaves the
provider not done, and the subsequent fetch completion makes it done. -/
theorem done_flag_spec :
    (∀ (now : ℝ) (s s2 : State),
      ConvertResultsToAutocompleteMatches now s s2 →
      (s2.done = true ↔
        (s2.history_request_pending = false ∧ s2.suggest_results_pending = 0))) ∧
    (∀ (now1 now2 : ℝ) (fixup : String → Option String) (fk ik succ : Bool)
      (code : ℤ) (root : Option JValue) (results : List HistoryResult)
      (s s1 s2 : State),
      s.history_request_pending = true → s.suggest_results_pending = 1 →
      OnGotMostRecentKeywordSearchTerms now1 fk results 1 s s1 →
      OnURLFetchComplete fixup now2 ik succ code root s1 s2 →
      s1.done = false ∧ s1.history_request_pending = false ∧
      s1.suggest_results_pending = 1 ∧ s2.done = true) := by
  constructor
  · intro now s s2 h
    obtain ⟨hd, hh, hs⟩ := convert_fields now s s2 h
    rw [hd, hh, hs]
    cases hhp : s.history_request_pending <;> simp
  · intro now1 now2 fixup fk ik succ code root results s s1 s2 h1 h2 hg hf
    simp only [OnGotMostRecentKeywordSearchTerms] at hg
    simp only [OnURLFetchComplete] at hf
    cases fk
    all_goals
      try simp only [reduceIte] at hg
      obtain ⟨hd1, hh1, hs1⟩ := convert_fields _ _ _ hg
      have hh1' : s1.history_request_pending = false := by simpa using hh1
      have hs1' : s1.suggest_results_pending = 1 := by
        rw [hs1]; simpa using h2
      have hd1' : s1.done = false := by
        rw [hd1]; simp [h2]
      refine ⟨hd1', hh1', hs1', ?_⟩
      obtain ⟨hd2, hh2, hs2⟩ := convert_fields _ _ _ hf
      rw [hd2]
      cases hbb : (succ && (code == 200)) <;> cases root <;>
        simp [hbb, hh1', hs1']

/-- A state with one outstanding history request and one outstanding
suggestion fetch. -/
def c8Start : State :=
  { emptyState with history_request_pending := true, suggest_results_pending := 1 }

/-- `c8Start` after the history completion callback (fetch still
outstanding). -/
def c8Mid : State :=
  { emptyState with suggest_results_pending := 1, have_history_results := true }

/-- `c8Mid` after the (failed) fetch completion callback. -/
def c8End : State :=
  { emptyState with have_history_results := true, done := true }

/-- Witness for C8: the two-callback scenario at concrete states. -/
theorem done_flag_spec_witness :
    c8Mid.done = false ∧ c8Mid.history_request_pending = false ∧
    c8Mid.suggest_results_pending = 1 ∧ c8End.done = true :=
  done_flag_spec.2 0 0 (fun _ => none) false false false 0 none [] c8Start c8Mid
    c8End rfl rfl
    ⟨[], ⟨List.Perm.nil, by simp, by simp⟩, by rfl⟩
    ⟨[], ⟨List.Perm.nil, by simp, by simp⟩, by rfl⟩

/-- A malformed suggest payload: the required suggestion at index 1 is not
a string. -/
def badRoot : JValue :=
  .list [.str "q", .list [.str "abc", .other]]

/-- A state with one outstanding suggestion fetch for input `"q"`. -/
def c9Start : State :=
  { emptyState with suggest_results_pending := 1 }

/-- The match the partially parsed suggestion `"abc"` turns into. -/
def mAbc : AutocompleteMatch :=
  { relevance := 600, contents := "abc", description := "",
    typ := .SEARCH_SUGGEST, fromKeyword := false }

/-- The pass outcome after the fetch of `badRoot` completes. -/
def c9End : State :=
  { emptyState with
    default_suggest_results := ["abc"],
    matches_ := [mAbc],
    done := true }

/-- Counterexample for C9: on the malformed payload `["q", ["abc", 42]]`
the parse returns failure, yet the suggestion `"abc"`, appended to the
member vector before the non-string element was reached, stays stored and
surfaces as a match of the triggered aggregation pass. -/
theorem topSortSpec_singleton (l : List AutocompleteMatch)
    (x : AutocompleteMatch) (h : l.Perm [x]) (mid : Nat) :
    TopSortSpec mid l [x] := by
  refine ⟨h, List.Pairwise.sublist (List.take_sublist _ _) (by simp), ?_⟩
  intro a ha b hb
  have ha2 : a ∈ [x] := List.take_subset _ _ ha
  have hb2 : b ∈ [x] := List.drop_subset _ _ hb
  simp only [List.mem_singleton] at ha2 hb2
  subst ha2; subst hb2
  simp [MoreRelevant]

theorem parse_failure_counterexample :
    ParseSuggestResults (fun _ => none) badRoot false "q"
        { suggest_results := [], keyword_navigation_results := [],
          default_navigation_results := [] } =
      (false,
        { suggest_results := ["abc"], keyword_navigation_results := [],
          default_navigation_results := [] }) ∧
    OnURLFetchComplete (fun _ => none) 0 false true 200 (some badRoot)
      c9Start c9End ∧
    ∃ m ∈ c9End.matches_, m.contents = "abc" ∧ m.typ = MatchType.SEARCH_SUGGEST := by
  refine ⟨rfl, ⟨[mAbc], topSortSpec_singleton _ mAbc (List.Perm.refl _) _, by rfl⟩, ?_⟩
  exact ⟨mAbc, by simp [c9End], rfl, rfl⟩

/-- C9 (amended): the parse is a total function (no abort can propagate),
and every malformed-shape case detected before the suggestion entries are
scanned — a non-list root, fewer than two elements, a mismatched echoed
query, a second element that is not a list — returns failure leaving the
result buffers untouched, so such a source contributes zero suggestions; a
non-string element among the suggestions also returns failure, but the
entries parsed before it remain stored (see the counterexample). -/
theorem parse_failure_amended (fixup : String → Option String) (ik : Bool)
    (input_text : String) (st : ParseState) :
    (∀ s, ParseSuggestResults fixup (.str s) ik input_text st = (false, st)) ∧
    (∀ d, ParseSuggestResults fixup (.dict d) ik input_text st = (false, st)) ∧
    ParseSuggestResults fixup .other ik input_text st = (false, st) ∧
    (∀ l, l.length < 2 →
      ParseSuggestResults fixup (.list l) ik input_text st = (false, st)) ∧
    (∀ l q, jListGet l 0 = some (.str q) → q ≠ input_text →
      ParseSuggestResults fixup (.list l) ik input_text st = (false, st)) ∧
    (∀ l v, jListGet l 1 = some v → (∀ rl, v ≠ JValue.list rl) →
      ParseSuggestResults fixup (.list l) ik input_text st = (false, st)) := by
  refine ⟨fun s => rfl, fun d => rfl, rfl, ?_, ?_, ?_⟩
  · intro l hl
    simp [ParseSuggestResults, hl]
  · intro l q h0 hq
    by_cases hl : l.length < 2
    · simp [ParseSuggestResults, hl]
    · simp [ParseSuggestResults, hl, h0, JValue.getAsString, hq]
  · intro l v h1 hv
    by_cases hl : l.length < 2
    · simp [ParseSuggestResults, hl]
    · rcases hq : (jListGet l 0).bind JValue.getAsString with _ | q
      · simp [ParseSuggestResults, hl, hq]
      · by_cases hqe : q ≠ input_text
        · simp [ParseSuggestResults, hl, hq, hqe]
        · have hqq : q = input_text := not_not.mp hqe
          subst hqq
          rcases v with s | rl | d | _
          · simp [ParseSuggestResults, hl, hq, h1]
          · exact absurd rfl (hv rl)
          · simp [ParseSuggestResults, hl, hq, h1]
          · simp [ParseSuggestResults, hl, hq, h1]

/-- Witness for C9 (amended): a non-list root and a too-short list both
fail leaving the buffers empty. -/
theorem parse_failure_amended_witness :
    ParseSuggestResults (fun _ => none) .other false "q"
        { suggest_results := [], keyword_navigation_results := [],
          default_navigation_results := [] } =
      (false,
        { suggest_results := [], keyword_navigation_results := [],
          default_navigation_results := [] }) ∧
    ParseSuggestResults (fun _ => none) (.list []) false "q"
        { suggest_results := [], keyword_navigation_results := [],
          default_navigation_results := [] } =
      (false,
        { suggest_results := [], keyword_navigation_results := [],
          default_navigation_results := [] }) :=
  ⟨(parse_failure_amended (fun _ => none) false "q" _).2.2.1,
   (parse_failure_amended (fun _ => none) false "q" _).2.2.2.1 [] (by decide)⟩

/-- C10: calling `Start` with a usable default provider and empty input
text returns synchronously with exactly the one localized placeholder
match, no history lookup or suggestion fetch issued (no pending request,
no running debounce timer), the provider marked done, and every per-source
result buffer cleared. -/
theorem start_empty_input_spec (profileValid : Bool) (input : AutocompleteInput)
    (kc ks : Bool) (ktext : String) (dc dsup kid dss kss : Bool)
    (dn kk : String) (peq mc : Bool) (s : State)
    (h1 : profileValid = true) (h2 : input.typ ≠ .INVALID)
    (h3 : input.text = "") (h4 : dc = true) (h5 : dsup = true) :
    ∃ s2, Start profileValid input kc ks ktext dc dsup kid dss kss dn kk peq mc s
        = some s2 ∧
      s2.matches_ = [placeholderMatch dn] ∧ s2.done = true ∧
      s2.history_request_pending = false ∧ s2.suggest_results_pending = 0 ∧
      s2.timer_running = false ∧
      s2.keyword_history_results = [] ∧ s2.default_history_results = [] ∧
      s2.keyword_suggest_results = [] ∧ s2.default_suggest_results = [] ∧
      s2.keyword_navigation_results = [] ∧ s2.default_navigation_results = [] ∧
      s2.have_history_results = false ∧ s2.have_suggest_results = false := by
  subst h1 h4 h5
  have hinv : decide (input.typ = InputType.INVALID) = false := by
    simpa using h2
  simp only [Start, hinv, h3, Bool.not_true, Bool.false_or, Bool.true_and,
    if_false, Bool.not_false]
  simp only [Bool.not_true, Bool.false_and, Bool.false_eq_true, if_false,
    if_true, reduceIte]
  refine ⟨_, rfl, ?_, rfl, rfl, rfl, rfl, rfl, rfl, rfl, rfl, rfl, rfl, rfl, rfl⟩
  simp [Stop, StopHistory, StopSuggest]

/-- The empty "?"-only input: forced-query classification, empty text. -/
def exampleInputEmpty : AutocompleteInput :=
  { typ := .FORCED_QUERY, text := "", scheme := "", usernameNonempty := false,
    portNonempty := false, queryNonempty := false, refNonempty := false,
    pathNonempty := false, synchronous_only := false,
    prevent_inline_autocomplete := false }

/-- Witness for C10: starting on the empty input with a usable default
provider named `"d"`. -/
theorem start_empty_input_spec_witness :
    ∃ s2, Start true exampleInputEmpty false false "" true true false false false
        "d" "k" false false emptyState = some s2 ∧
      s2.matches_ = [placeholderMatch "d"] ∧ s2.done = true ∧
      s2.history_request_pending = false ∧ s2.suggest_results_pending = 0 ∧
      s2.timer_running = false ∧
      s2.keyword_history_results = [] ∧ s2.default_history_results = [] ∧
      s2.keyword_suggest_results = [] ∧ s2.default_suggest_results = [] ∧
      s2.keyword_navigation_results = [] ∧ s2.default_navigation_results = [] ∧
      s2.have_history_results = false ∧ s2.have_suggest_results = false :=
  start_empty_input_spec true exampleInputEmpty false false "" true true false
    false false "d" "k" false false emptyState rfl (by decide) rfl rfl rfl

end SearchProvider
